import Mathlib

/-!
Verification of the FastyBird FB-BUS connector against its natural-language
specification.  The Python sources are shallowly embedded: records become
structures, property setters become pure state-transforming functions,
`time.time()` becomes an explicit `now` argument, and Python exceptions
become `Except` values.  Secondary registry lookup tables are passed as
explicit lookup functions.  Where a definition could not be taken from a
file under `src/` (the newer package's `registry/model.py`, `types.py` and
`utilities/helpers.py` are absent), the definition carries a doc comment
starting with `Modelled from the spec:`.
-/

namespace FbBus

/-- Packet opcodes of `fb_bus_connector_plugin/types.py` (`Packet`), a closed
set of tagged variants with u8 numeric values. -/
inductive Packet
  | ping
  | pong
  | exc
  | discover
  | readSingleRegister
  | readMultipleRegisters
  | writeSingleRegister
  | writeMultipleRegisters
  | reportSingleRegister
  | readState
  | writeState
  | reportState
  | pubSubReadRegisterKey
  | pubSubWriteRegisterKey
  | pubSubBroadcastRegisterValue
  | pubSubSubscribe
  | pubSubUnsubscribe
  deriving DecidableEq, Repr

/-- Numeric u8 value of each opcode, from `fb_bus_connector_plugin/types.py`. -/
def Packet.value : Packet → Nat
  | .ping => 0x01
  | .pong => 0x02
  | .exc => 0x03
  | .discover => 0x04
  | .readSingleRegister => 0x21
  | .readMultipleRegisters => 0x22
  | .writeSingleRegister => 0x23
  | .writeMultipleRegisters => 0x24
  | .reportSingleRegister => 0x25
  | .readState => 0x31
  | .writeState => 0x32
  | .reportState => 0x33
  | .pubSubReadRegisterKey => 0x41
  | .pubSubWriteRegisterKey => 0x42
  | .pubSubBroadcastRegisterValue => 0x43
  | .pubSubSubscribe => 0x44
  | .pubSubUnsubscribe => 0x45

/-- Python-side value union `Union[str, int, float, bool, datetime,
ButtonPayload, SwitchPayload]` used for register values.  Floats are carried
as their 32-bit little-endian bit pattern, datetimes as their source string;
the claims under verification never inspect those payloads. -/
inductive PyValue
  | pyStr (s : String)
  | pyInt (n : Int)
  | pyFloat (bits : Nat)
  | pyBool (b : Bool)
  | pyDatetime (s : String)
  | pyButton (n : Nat)
  | pySwitch (n : Nat)
  deriving DecidableEq, Repr

/-! ### C1 — device record communication pointer
Embedding of `fastybird_fb_bus_connector/registry/records.py`,
`DeviceRecord` (the fields the claim touches: `waiting_for_packet`,
`last_packet_sent_timestamp`, `transmit_attempts`). -/

/-- Communication-relevant fields of `DeviceRecord`
(`fastybird_fb_bus_connector/registry/records.py`). -/
structure DeviceRecord where
  waiting_for_packet : Option Packet
  last_packet_sent_timestamp : Int
  transmit_attempts : Nat
  deriving DecidableEq, Repr

/-- The `waiting_for_packet` setter (`records.py` lines 176-183): store the
new value; when it is not `None`, stamp `last_packet_sent_timestamp = now`
and increment the attempt counter; when it is `None`, leave both as they
are.  `time.time()` is the explicit `now` argument. -/
def waiting_for_packet_set (d : DeviceRecord) (p : Option Packet) (now : Int) :
    DeviceRecord :=
  match p with
  | some q => { d with waiting_for_packet := some q,
                       last_packet_sent_timestamp := now,
                       transmit_attempts := d.transmit_attempts + 1 }
  | none => { d with waiting_for_packet := none }

/-- Embedding of `DeviceRecord.reset_communication` (`records.py` lines 215-218):
`waiting_for_packet := None` and `transmit_attempts := 0`. -/
def reset_communication (d : DeviceRecord) : DeviceRecord :=
  { d with waiting_for_packet := none, transmit_attempts := 0 }

/-- Concrete device used in counterexamples: fresh record, then one packet
sent (attempt counter 1). -/
def deviceAfterOneSend : DeviceRecord :=
  waiting_for_packet_set ⟨none, 0, 0⟩ (some .ping) 1

/-- C1 counterexample: the claim says that *every* operation that makes
`waiting_for_packet` transition to `None` resets `transmit_attempts` to 0 in
the same step.  The plain `waiting_for_packet` setter with `None` is such an
operation, yet it leaves the attempt counter untouched: starting from a
device with one recorded attempt, after `waiting_for_packet = None` the
device has `waiting_for_packet = None` but `transmit_attempts = 1 ≠ 0`. -/
theorem C1_counterexample :
    (waiting_for_packet_set deviceAfterOneSend none 2).waiting_for_packet = none ∧
    ¬ (waiting_for_packet_set deviceAfterOneSend none 2).transmit_attempts = 0 := by
  decide

/-- C1 (amended): only `reset_communication` clears `waiting_for_packet`
*and* resets `transmit_attempts` to 0; the `waiting_for_packet` setter with
`None` clears the slot but leaves `transmit_attempts` (and the timestamp)
unchanged, and with a concrete opcode it stamps the timestamp and increments
the counter. -/
theorem C1_amended_reset_communication (d : DeviceRecord) (now : Int) :
    (reset_communication d).waiting_for_packet = none ∧
    (reset_communication d).transmit_attempts = 0 ∧
    (waiting_for_packet_set d none now).waiting_for_packet = none ∧
    (waiting_for_packet_set d none now).transmit_attempts = d.transmit_attempts ∧
    (waiting_for_packet_set d none now).last_packet_sent_timestamp
      = d.last_packet_sent_timestamp ∧
    ∀ p : Packet,
      (waiting_for_packet_set d (some p) now).transmit_attempts
          = d.transmit_attempts + 1 ∧
      (waiting_for_packet_set d (some p) now).last_packet_sent_timestamp = now := by
  refine ⟨rfl, rfl, rfl, rfl, rfl, fun p => ⟨rfl, rfl⟩⟩

/-! ### C10 — pairing register record constructors
Embedding of `fastybird_fb_bus_connector/registry/records.py`, classes
`PairingRegisterRecord` (base `__init__`), `PairingNamedRegisterRecord`
(lines 1015-1034) and `PairingAttributeRegisterRecord` (lines 1054-1071). -/

/-- Register kinds of the newer package (INPUT/OUTPUT/ATTRIBUTE). -/
inductive RegisterKind
  | input
  | output
  | attribute
  deriving DecidableEq, Repr

/-- Data types of the `fastybird_metadata` library (`DataType`), as used by
the newer package's register records. -/
inductive MDataType
  | char
  | uchar
  | short
  | ushort
  | int
  | uint
  | float
  | boolean
  | enum
  | string
  | date
  | time
  | datetime
  | button
  | switch
  | unknown
  deriving DecidableEq, Repr

/-- State stored by the `PairingRegisterRecord` base constructor. -/
structure PairingRegisterRecord where
  address : Nat
  kind : RegisterKind
  data_type : MDataType
  settable : Bool
  queryable : Bool
  name : Option String
  deriving DecidableEq, Repr

/-- Base `PairingRegisterRecord.__init__`: stores each argument in the field
of the same name (no swap). -/
def pairingRegisterRecord_init (register_address : Nat) (register_type : RegisterKind)
    (register_data_type : MDataType) (register_settable register_queryable : Bool) :
    PairingRegisterRecord :=
  ⟨register_address, register_type, register_data_type,
   register_settable, register_queryable, none⟩

/-- Embedding of `PairingNamedRegisterRecord.__init__` (lines 1015-1034): delegates to the
base constructor passing `register_queryable=register_settable` and
`register_settable=register_queryable` — the two flags are swapped. -/
def pairingNamedRegisterRecord_init (register_address : Nat)
    (register_type : RegisterKind) (register_data_type : MDataType)
    (register_name : Option String) (register_settable register_queryable : Bool) :
    PairingRegisterRecord :=
  { pairingRegisterRecord_init register_address register_type register_data_type
      register_queryable register_settable with
    name := register_name }

/-- Embedding of `PairingAttributeRegisterRecord.__init__` (lines 1054-1071): delegates to
`PairingNamedRegisterRecord.__init__` with kind ATTRIBUTE, again passing
`register_queryable=register_settable` and `register_settable=register_queryable`
— a second swap. -/
def pairingAttributeRegisterRecord_init (register_address : Nat)
    (register_data_type : MDataType) (register_name : Option String)
    (register_settable register_queryable : Bool) : PairingRegisterRecord :=
  pairingNamedRegisterRecord_init register_address .attribute register_data_type
    register_name register_queryable register_settable

/-- C10: for all flags `s`, `q`, the attribute-record constructor yields
`settable = s` and `queryable = q` (its swap cancels the swap inside
`PairingNamedRegisterRecord.__init__`), while constructing a
`PairingNamedRegisterRecord` directly yields the two flags exchanged
(`settable = q`, `queryable = s`). -/
theorem C10_pairing_record_swap (s q : Bool) (a : Nat) (dt : MDataType)
    (nm : Option String) :
    (pairingAttributeRegisterRecord_init a dt nm s q).settable = s ∧
    (pairingAttributeRegisterRecord_init a dt nm s q).queryable = q ∧
    (pairingAttributeRegisterRecord_init a dt nm s q).kind = .attribute ∧
    (pairingNamedRegisterRecord_init a .attribute dt nm s q).settable = q ∧
    (pairingNamedRegisterRecord_init a .attribute dt nm s q).queryable = s := by
  refine ⟨rfl, rfl, rfl, rfl, rfl⟩

/-! ### C6 — register record value mutators
Embedding of `RegisterRecord` and its property setters, identical in
`fastybird_fb_bus_connector/registry/records.py` (lines 385-426) and
`fb_bus_connector_plugin/registry/records.py` (lines 598-639); the
`RegistersRegistry.set_actual_value` / `set_expected_value` wrappers
(`fb_bus_connector_plugin/registry/model.py` lines 791-828) delegate to
these setters and re-store the record. -/

/-- Value-relevant fields of `RegisterRecord`. -/
structure RegisterRecord where
  address : Nat
  kind : RegisterKind
  data_type : MDataType
  name : Option String
  actual_value : Option PyValue
  expected_value : Option PyValue
  expected_pending : Option Int
  deriving DecidableEq, Repr

/-- The `expected_value` setter: store the value; when it is not `None`,
also clear `expected_pending` (a `None` value leaves the pending stamp). -/
def expected_value_set (r : RegisterRecord) (v : Option PyValue) : RegisterRecord :=
  match v with
  | some w => { r with expected_value := some w, expected_pending := none }
  | none => { r with expected_value := none }

/-- The `actual_value` setter: store the value; when it equals the current
`expected_value`, clear `expected_value` and `expected_pending` in the same
call. -/
def actual_value_set (r : RegisterRecord) (v : PyValue) : RegisterRecord :=
  let r1 := { r with actual_value := some v }
  if some v = r.expected_value then
    { (expected_value_set r1 none) with expected_pending := none }
  else
    r1

/-- Concrete register for the C6 counterexample: actual value 5, nothing
expected. -/
def registerActualFive : RegisterRecord :=
  ⟨0, .output, .int, none, some (.pyInt 5), none, none⟩

/-- C6 counterexample: the claim ends with "after any single mutator call,
`actual_value == expected_value` implies `expected_value == none` and
`expected_pending == none`".  The mutator `set_expected_value` violates
this: on a register whose actual value is 5, setting the expected value to 5
leaves `actual_value == expected_value == 5` with `expected_value ≠ none`. -/
theorem C6_counterexample :
    (expected_value_set registerActualFive (some (.pyInt 5))).actual_value
        = (expected_value_set registerActualFive (some (.pyInt 5))).expected_value ∧
    ¬ (expected_value_set registerActualFive (some (.pyInt 5))).expected_value = none := by
  decide

/-- C6 (amended): `set_actual_value` assigns `actual_value = v` and, exactly
when `v` equals the current `expected_value`, clears `expected_value` and
`expected_pending` within the same call; consequently after any single
`set_actual_value` call `actual_value` never equals `expected_value` (the
cleared slot is `none` while the actual value is not), so the claimed
implication holds after `set_actual_value` — but not after every mutator. -/
theorem C6_amended_set_actual_value (r : RegisterRecord) (v : PyValue) :
    (actual_value_set r v).actual_value = some v ∧
    (actual_value_set r v).expected_value
      = (if some v = r.expected_value then none else r.expected_value) ∧
    (actual_value_set r v).expected_pending
      = (if some v = r.expected_value then none else r.expected_pending) ∧
    ¬ (actual_value_set r v).actual_value = (actual_value_set r v).expected_value := by
  unfold actual_value_set expected_value_set
  by_cases h : some v = r.expected_value
  · rw [if_pos h, if_pos h, if_pos h]
    refine ⟨rfl, rfl, rfl, ?_⟩
    simp
  · rw [if_neg h, if_neg h, if_neg h]
    exact ⟨rfl, rfl, rfl, h⟩

/-! ### C4 — write path build errors
Embedding of `V1Builder.build_write_single_register_value`
(`fastybird_fb_bus_connector/api/v1builder.py` lines 138-208) and
`ApiV1Publisher.__write_value_to_single_register`
(`fastybird_fb_bus_connector/publishers/apiv1.py` lines 351-399). -/

/-- Numeric u8 value of a register kind (INPUT=0x01, OUTPUT=0x02,
ATTRIBUTE=0x03). -/
def RegisterKind.value : RegisterKind → Nat
  | .input => 0x01
  | .output => 0x02
  | .attribute => 0x03

/-- Little-endian 4-byte encoding of a 32-bit unsigned value. -/
def u32le (n : Nat) : List Nat :=
  [n % 256, n / 256 % 256, n / 65536 % 256, n / 16777216 % 256]

/-- Modelled from the spec: `ValueTransformHelpers.transform_to_bytes` lives
in `fastybird_fb_bus_connector/utilities/helpers.py`, which is not under
`src/`.  Per §4.2: integer values pack little-endian into 4 bytes
(`<I`/`<i`), FLOAT packs its 32-bit pattern, BOOLEAN is transmitted as
`0xFF00` (true) / `0x0000` (false) in a u32 slot (Python truthiness of the
supplied scalar), a Python `bool` counts as the integer 0/1 for the integer
types, and failure to map a value yields absent (`None`). -/
def transform_to_bytes (dt : MDataType) (v : PyValue) : Option (List Nat) :=
  match dt, v with
  | .uchar, .pyInt n | .ushort, .pyInt n | .uint, .pyInt n =>
    if 0 ≤ n ∧ n < 4294967296 then some (u32le n.toNat) else none
  | .uchar, .pyBool b | .ushort, .pyBool b | .uint, .pyBool b =>
    some (u32le (if b then 1 else 0))
  | .char, .pyInt n | .short, .pyInt n | .int, .pyInt n =>
    if -2147483648 ≤ n ∧ n < 2147483648 then some (u32le (n.emod 4294967296).toNat)
    else none
  | .char, .pyBool b | .short, .pyBool b | .int, .pyBool b =>
    some (u32le (if b then 1 else 0))
  | .float, .pyFloat bits => if bits < 4294967296 then some (u32le bits) else none
  | .boolean, .pyBool b => some (u32le (if b then 0xFF00 else 0))
  | .boolean, .pyInt n => some (u32le (if n = 0 then 0 else 0xFF00))
  | .boolean, .pyFloat bits => some (u32le (if bits = 0 then 0 else 0xFF00))
  | _, _ => none

/-- Modelled from the spec: the "state" ATTRIBUTE special case of §4.3 maps a
connection-state symbol through `StateTransformHelpers.transform_for_device`
(in the missing `utilities/helpers.py`) to the device's numeric state code
and encodes it as UCHAR; any other value cannot be mapped. -/
def state_attribute_bytes (v : PyValue) : Option (List Nat) :=
  match v with
  | .pyStr s =>
    if s = "running" then some (u32le 0x01)
    else if s = "stopped" then some (u32le 0x02)
    else none
  | _ => none

/-- Data types accepted by the numeric branch of the builder (source list at
`v1builder.py` lines 155-166). -/
def numericDataTypes : List MDataType :=
  [.char, .uchar, .short, .ushort, .int, .uint, .float, .boolean]

/-- Python `isinstance(write_value, (int, float, bool))` guard of the
builder. -/
def isIntFloatBool : PyValue → Bool
  | .pyInt _ => true
  | .pyFloat _ => true
  | .pyBool _ => true
  | _ => false

/-- Length-prefixed serial-number suffix of the builder (`serial_len`
followed by the character codes). -/
def serialSuffix : Option String → List Nat
  | none => []
  | some s => s.length :: (s.toList.map Char.toNat)

/-- Build error raised by the builder (`BuildPayloadException`). -/
structure BuildError where
  msg : String
  deriving DecidableEq, Repr

/-- Embedding of `V1Builder.build_write_single_register_value` (lines 138-208): header
`[version, opcode, kind, addr_hi, addr_lo]`; then the numeric branch (data
type in the numeric list and the value an int/float/bool, failure of the
codec raising `BuildPayloadException`), or the ENUM "state"-attribute
branch, or `BuildPayloadException("Unsupported register data type")`.  The
newer package's `types.py` is not under `src/`; the opcode byte 0x23 is
taken from the plugin's `Packet.WRITE_SINGLE_REGISTER`. -/
def build_write_single_register_value (register_type : RegisterKind)
    (register_address : Nat) (register_data_type : MDataType)
    (register_name : Option String) (write_value : PyValue)
    (serial_number : Option String) : Except BuildError (List Nat) :=
  let header := [0x01, 0x23, register_type.value,
    register_address / 256 % 256, register_address % 256]
  if register_data_type ∈ numericDataTypes ∧ isIntFloatBool write_value then
    match transform_to_bytes register_data_type write_value with
    | none => .error ⟨"Value to be written into register could not be transformed"⟩
    | some bs => .ok (header ++ bs ++ serialSuffix serial_number)
  else if register_data_type = .enum ∧ register_type = .attribute ∧
      register_name = some "state" then
    match state_attribute_bytes write_value with
    | none => .error ⟨"Value to be written into register could not be transformed"⟩
    | some bs => .ok (header ++ bs ++ serialSuffix serial_number)
  else
    .error ⟨"Unsupported register data type"⟩

/-- The builder admits a value for a register on the publisher's write path
(where `register_name=None` is passed, so the ENUM "state" branch never
fires): the data type is in the numeric list, the value is an
int/float/bool, and the codec can encode it. -/
def admitsValue (dt : MDataType) (v : PyValue) : Bool :=
  decide (dt ∈ numericDataTypes) && isIntFloatBool v &&
    (transform_to_bytes dt v).isSome

/-- Embedding of `ApiV1Publisher.__write_value_to_single_register` (lines 351-399):
build the frame with `register_name=None`; on `BuildPayloadException` clear
the register's `expected_value` (via `set_expected_value(register, None)`),
send nothing and return `False`; on success submit the one frame and return
the transport result.  Result: updated register, frames handed to the
transport, returned boolean. -/
def write_value_to_single_register (register : RegisterRecord)
    (write_value : PyValue) (sendOk : Bool) :
    RegisterRecord × List (List Nat) × Bool :=
  match build_write_single_register_value register.kind register.address
      register.data_type none write_value none with
  | .error _ => (expected_value_set register none, [], false)
  | .ok payload => (register, [payload], sendOk)

/-- C4: whenever a register's non-null expected value is not admitted by its
declared data type (not an int/float/bool for a numeric/boolean register, or
a value the codec cannot encode), the builder raises a build error, the
publisher sends no frame, the register's `expected_value` is cleared and its
`actual_value` is unchanged; the write reports failure. -/
theorem C4_build_error_clears_expected (r : RegisterRecord) (v : PyValue)
    (sendOk : Bool) (_hexp : r.expected_value = some v)
    (hadm : admitsValue r.data_type v = false) :
    (∃ e, build_write_single_register_value r.kind r.address r.data_type
        none v none = .error e) ∧
    (write_value_to_single_register r v sendOk).1.expected_value = none ∧
    (write_value_to_single_register r v sendOk).1.actual_value = r.actual_value ∧
    (write_value_to_single_register r v sendOk).2.1 = [] ∧
    (write_value_to_single_register r v sendOk).2.2 = false := by
  have hbuild : ∃ e, build_write_single_register_value r.kind r.address
      r.data_type none v none = .error e := by
    unfold build_write_single_register_value
    by_cases h1 : r.data_type ∈ numericDataTypes ∧ isIntFloatBool v = true
    · rw [if_pos h1]
      have hT : transform_to_bytes r.data_type v = none := by
        cases hT : transform_to_bytes r.data_type v with
        | none => rfl
        | some bs =>
          unfold admitsValue at hadm
          rw [hT] at hadm
          simp [h1.1, h1.2] at hadm
      rw [hT]
      exact ⟨_, rfl⟩
    · rw [if_neg h1]
      have h2 : ¬ (r.data_type = MDataType.enum ∧ r.kind = RegisterKind.attribute ∧
          (none : Option String) = some "state") := by
        intro h2
        exact Option.noConfusion h2.2.2
      rw [if_neg h2]
      exact ⟨_, rfl⟩
  obtain ⟨e, he⟩ := hbuild
  refine ⟨⟨e, he⟩, ?_, ?_, ?_, ?_⟩ <;>
    simp [write_value_to_single_register, he, expected_value_set]

/-- C4 witness: a BOOLEAN register expecting the text "hello" (spec scenario
S4): the value is not admitted, the frame list is empty, the expected value
is cleared and the actual value (here `none`) is untouched. -/
theorem C4_witness :
    (⟨3, RegisterKind.output, MDataType.boolean, none, none,
        some (.pyStr "hello"), none⟩ : RegisterRecord).expected_value
      = some (.pyStr "hello") ∧
    admitsValue MDataType.boolean (.pyStr "hello") = false ∧
    ((∃ e, build_write_single_register_value RegisterKind.output 3
        MDataType.boolean none (.pyStr "hello") none = .error e) ∧
      (write_value_to_single_register ⟨3, .output, .boolean, none, none,
          some (.pyStr "hello"), none⟩ (.pyStr "hello") true).1.expected_value = none ∧
      (write_value_to_single_register ⟨3, .output, .boolean, none, none,
          some (.pyStr "hello"), none⟩ (.pyStr "hello") true).1.actual_value = none ∧
      (write_value_to_single_register ⟨3, .output, .boolean, none, none,
          some (.pyStr "hello"), none⟩ (.pyStr "hello") true).2.1 = [] ∧
      (write_value_to_single_register ⟨3, .output, .boolean, none, none,
          some (.pyStr "hello"), none⟩ (.pyStr "hello") true).2.2 = false) :=
  ⟨rfl, by decide,
    C4_build_error_clears_expected
      ⟨3, .output, .boolean, none, none, some (.pyStr "hello"), none⟩
      (.pyStr "hello") true rfl (by decide)⟩

/-! ### C5 — inbound payload validator
Embedding of `fb_bus_connector_plugin/api/v1validator.py` (`V1Validator`).
Python's `bytearray` indexing raises `IndexError` past the end, and `Enum`
construction (`ProtocolVersion(x)`, `Packet(x)`, `PairingResponse(x)`)
raises `ValueError` for a value that is not a member, so the embedding
returns `Except PyErr Bool`. -/

/-- Python exceptions the validator can raise. -/
inductive PyErr
  | indexError
  | valueError
  deriving DecidableEq, Repr

/-- Embedding of `payload[i]` on a bytearray: the byte, or `IndexError`. -/
def byteAt (payload : List Nat) (i : Nat) : Except PyErr Nat :=
  match payload.get? i with
  | some b => .ok b
  | none => .error .indexError

/-- Embedding of `ProtocolVersion(x)`: `V1 = 0x01` is the only member; any other value
raises `ValueError`. -/
def protocolVersionOf (b : Nat) : Except PyErr Nat :=
  if b = 1 then .ok b else .error .valueError

/-- Numeric value to `Packet` member (the `Packet.__call__` lookup). -/
def Packet.fromValue (n : Nat) : Option Packet :=
  match n with
  | 0x01 => some .ping
  | 0x02 => some .pong
  | 0x03 => some .exc
  | 0x04 => some .discover
  | 0x21 => some .readSingleRegister
  | 0x22 => some .readMultipleRegisters
  | 0x23 => some .writeSingleRegister
  | 0x24 => some .writeMultipleRegisters
  | 0x25 => some .reportSingleRegister
  | 0x31 => some .readState
  | 0x32 => some .writeState
  | 0x33 => some .reportState
  | 0x41 => some .pubSubReadRegisterKey
  | 0x42 => some .pubSubWriteRegisterKey
  | 0x43 => some .pubSubBroadcastRegisterValue
  | 0x44 => some .pubSubSubscribe
  | 0x45 => some .pubSubUnsubscribe
  | _ => none

/-- Embedding of `Packet(x)`: the member, or `ValueError`. -/
def packetOf (b : Nat) : Except PyErr Packet :=
  match Packet.fromValue b with
  | some p => .ok p
  | none => .error .valueError

/-- Numeric values of the `PairingResponse` enum (SEARCH=0x51,
WRITE_ADDRESS=0x53, PROVIDE_REGISTER_STRUCTURE=0x55, PAIRING_FINISHED=0x57). -/
def pairingResponses : List Nat := [0x51, 0x53, 0x55, 0x57]

/-- Embedding of `PairingResponse(x)`: the member value, or `ValueError`. -/
def pairingResponseOf (b : Nat) : Except PyErr Nat :=
  if b ∈ pairingResponses then .ok b else .error .valueError

/-- Embedding of `V1Validator.validate_version`: `ProtocolVersion(int(payload[0])) ==
ProtocolVersion.V1`. -/
def validate_version (payload : List Nat) : Except PyErr Bool :=
  match byteAt payload 0 with
  | .error e => .error e
  | .ok b =>
    match protocolVersionOf b with
    | .error e => .error e
    | .ok v => .ok (v = 1)

/-- Embedding of `V1Validator.validate_discover_device`: `Packet(int(payload[1])) ==
Packet.DISCOVER`. -/
def validate_discover_device (payload : List Nat) : Except PyErr Bool :=
  match byteAt payload 1 with
  | .error e => .error e
  | .ok b =>
    match packetOf b with
    | .error e => .error e
    | .ok p => .ok (p = .discover)

/-- Collapsed `or` of the four `validate_pair_command_*` checks on
`payload[2]` (lines 47-53): the first check already raises `ValueError`
unless the byte is a `PairingResponse` member, and a member always matches
one of the four, so the chain is `True` exactly on members. -/
def pairingChain (payload : List Nat) : Except PyErr Bool :=
  match byteAt payload 2 with
  | .error e => .error e
  | .ok b =>
    match pairingResponseOf b with
    | .error e => .error e
    | .ok r => .ok (r ∈ pairingResponses)

/-- Packets accepted by the `or`-chain of lines 56-68 (read/write/report
single and multiple registers, read/write/report state, the two handled
pub/sub opcodes, and PONG). -/
def handledPackets : List Packet :=
  [.readSingleRegister, .readMultipleRegisters, .writeSingleRegister,
   .writeMultipleRegisters, .reportSingleRegister, .readState, .writeState,
   .reportState, .pubSubWriteRegisterKey, .pubSubBroadcastRegisterValue, .pong]

/-- Collapsed `or`-chain of lines 56-68: every branch coerces the same
`payload[1]` byte through `Packet(...)` and compares with one opcode. -/
def opcodeChain (payload : List Nat) : Except PyErr Bool :=
  match byteAt payload 1 with
  | .error e => .error e
  | .ok b =>
    match packetOf b with
    | .error e => .error e
    | .ok p => .ok (p ∈ handledPackets)

/-- Embedding of `V1Validator.validate` (lines 42-71): version gate, then the DISCOVER
block (whose pairing chain may return `True`), then the opcode chain, then
`False`. -/
def validate (payload : List Nat) : Except PyErr Bool :=
  match validate_version payload with
  | .error e => .error e
  | .ok false => .ok false
  | .ok true =>
    match validate_discover_device payload with
    | .error e => .error e
    | .ok true =>
      match pairingChain payload with
      | .error e => .error e
      | .ok true => .ok true
      | .ok false => opcodeChain payload
    | .ok false => opcodeChain payload

/-- C5 counterexample: the claim says the validator totally classifies
payloads without raising and returns `False` for a payload shorter than 2
bytes, a wrong version byte, or an unknown opcode.  In fact all three raise:
`[0x01, 0x99]` (unknown opcode) raises `ValueError`, `[0x01]` (too short)
raises `IndexError`, and `[0x02, 0x21]` (wrong version) raises `ValueError`
— none of them returns `False`. -/
theorem C5_counterexample :
    validate [0x01, 0x99] = .error .valueError ∧
    validate [0x01] = .error .indexError ∧
    validate [0x02, 0x21] = .error .valueError ∧
    ¬ validate [0x01, 0x99] = .ok false := by
  refine ⟨rfl, rfl, rfl, fun h => ?_⟩
  rw [show validate [0x01, 0x99] = .error .valueError from rfl] at h
  exact Except.noConfusion h

/-- C5 (amended): the validator is not total.  A payload shorter than 2
bytes raises (IndexError, or ValueError already at the version byte); a
first byte other than 0x01 raises `ValueError`; a second byte outside the
known opcode set raises `ValueError`; and `True` is returned only for
payloads with version V1 whose opcode is either in the handled inbound set
or DISCOVER followed by a pairing-response byte — so dropping such malformed
packets is up to the caller's exception handling, not a `False` return. -/
theorem C5_amended_validator_raises (payload : List Nat) :
    (payload.length < 2 → ∃ e, validate payload = .error e) ∧
    (∀ b0 t, payload = b0 :: t → ¬ b0 = 1 →
      validate payload = .error .valueError) ∧
    (∀ b0 b1 t, payload = b0 :: b1 :: t → b0 = 1 → Packet.fromValue b1 = none →
      validate payload = .error .valueError) ∧
    (∀ b0 b1 t, payload = b0 :: b1 :: t → validate payload = .ok true →
      b0 = 1 ∧ ∃ p, Packet.fromValue b1 = some p ∧
        (p ∈ handledPackets ∨
          (p = .discover ∧ ∃ b2 t2, t = b2 :: t2 ∧ b2 ∈ pairingResponses))) := by
  refine ⟨?_, ?_, ?_, ?_⟩
  · intro hlen
    match payload with
    | [] => exact ⟨.indexError, rfl⟩
    | [b0] =>
      by_cases h : b0 = 1
      · subst h
        exact ⟨.indexError, rfl⟩
      · refine ⟨.valueError, ?_⟩
        simp [validate, validate_version, byteAt, protocolVersionOf, h]
    | b0 :: b1 :: t => exact absurd hlen (by simp)
  · rintro b0 t rfl h
    simp [validate, validate_version, byteAt, protocolVersionOf, h]
  · rintro b0 b1 t rfl h1 hfv
    subst h1
    simp [validate, validate_version, validate_discover_device, byteAt,
      protocolVersionOf, packetOf, hfv]
  · rintro b0 b1 t rfl hok
    by_cases h0 : b0 = 1
    · subst h0
      refine ⟨rfl, ?_⟩
      cases hfv : Packet.fromValue b1 with
      | none =>
        rw [show validate (1 :: b1 :: t) = .error .valueError by
          simp [validate, validate_version, validate_discover_device, byteAt,
            protocolVersionOf, packetOf, hfv]] at hok
        exact absurd hok (by simp)
      | some p =>
        refine ⟨p, rfl, ?_⟩
        by_cases hd : p = Packet.discover
        · subst hd
          match t with
          | [] =>
            rw [show validate [1, b1] = .error .indexError by
              simp [validate, validate_version, validate_discover_device,
                pairingChain, byteAt, protocolVersionOf, packetOf, hfv]] at hok
            exact absurd hok (by simp)
          | b2 :: t2 =>
            by_cases hm : b2 ∈ pairingResponses
            · exact Or.inr ⟨rfl, b2, t2, rfl, hm⟩
            · rw [show validate (1 :: b1 :: b2 :: t2) = .error .valueError by
                simp [validate, validate_version, validate_discover_device,
                  pairingChain, byteAt, protocolVersionOf, packetOf,
                  pairingResponseOf, hfv, hm]] at hok
              exact absurd hok (by simp)
        · left
          by_cases hh : p ∈ handledPackets
          · exact hh
          · rw [show validate (1 :: b1 :: t) = .ok false by
              simp [validate, validate_version, validate_discover_device,
                opcodeChain, byteAt, protocolVersionOf, packetOf, hfv, hd, hh]] at hok
            exact absurd hok (by simp)
    · rw [show validate (b0 :: b1 :: t) = .error .valueError by
        simp [validate, validate_version, byteAt, protocolVersionOf, h0]] at hok
      exact absurd hok (by simp)

/-- C5 witness: the amended theorem applied at concrete payloads — the empty
payload raises, and a wrong-version two-byte payload raises `ValueError`. -/
theorem C5_amended_validator_raises_witness :
    (∃ e, validate [] = .error e) ∧ validate [2, 2] = .error .valueError :=
  ⟨(C5_amended_validator_raises []).1 (by decide),
   (C5_amended_validator_raises [2, 2]).2.1 2 [2] rfl (by decide)⟩

/-! ### C2 — multi-read planning
Embedding of `ApiV1Publisher.__read_multiple_registers`
(`fastybird_fb_bus_connector/publishers/apiv1.py` lines 246-320) and
`__get_max_packet_length_for_device` (lines 443-452).  The bank size
`register_size` (the number of registers of the bank's kind, supplied by the
missing newer `RegistersRegistry.get_all_for_device`) and the value of the
"max_packet_length" attribute register are passed in explicitly. -/

/-- Embedding of `ApiV1Publisher.__get_max_packet_length_for_device`: the actual value of
the "max_packet_length" attribute register when it is an `int`, else 80.
Python's `isinstance(x, int)` also accepts `bool` (`True`/`False` count as
1/0). -/
def get_max_packet_length_for_device (attr : Option PyValue) : Int :=
  match attr with
  | some (.pyInt m) => m
  | some (.pyBool b) => if b then 1 else 0
  | _ => 80

/-- Python floor division `(max_packet_length - 8) // 4` (line 264). -/
def max_readable_registers_count (m : Int) : Int := Int.fdiv (m - 8) 4

/-- Outcome of one `__read_multiple_registers` call on an INPUT/OUTPUT bank:
either no READ is emitted and the cursor advances past the bank
(`__update_reading_pointer`), or a READ over `[start, start+len)` is sent;
`cont` tells whether the cursor stays inside the bank (set to `start+len`)
or the bank is finished. -/
inductive ReadStep
  | skip
  | emit (start len : Int) (cont : Bool)
  deriving DecidableEq, Repr

/-- Core arithmetic of `__read_multiple_registers` (lines 264-318), on the
transport success path: `max_readable_addresses = start + mrc - 1`; when
`max_readable_addresses + 1 >= register_size` the read length is
`register_size` (for `start = 0`) or `register_size - start`, otherwise
`mrc`; a non-positive read length advances the pointer without a READ; after
a sent READ the cursor stays in the bank iff `next_address + 1 <=
register_size`. -/
def read_multiple_registers_step (register_size mrc start_address : Int) : ReadStep :=
  let max_readable_addresses := start_address + mrc - 1
  let read_length :=
    if max_readable_addresses + 1 ≥ register_size then
      if start_address = 0 then register_size else register_size - start_address
    else mrc
  let next_address := start_address + read_length
  if read_length ≤ 0 then .skip
  else .emit start_address read_length (decide (¬ next_address + 1 > register_size))

/-- One bank sweep: iterate `read_multiple_registers_step` from the given
cursor, collecting the `[start, start+len)` ranges of the emitted READ
requests, while the step keeps the cursor inside the bank. -/
def bank_sweep (register_size mrc start : Int) : Nat → List (Int × Int)
  | 0 => []
  | fuel + 1 =>
    match read_multiple_registers_step register_size mrc start with
    | .skip => []
    | .emit s l cont =>
      (s, l) :: (if cont then bank_sweep register_size mrc (s + l) fuel else [])

/-- Chained-coverage check: `sweepEnd start rs = some e` holds exactly when
the ranges in `rs` are consecutive (each starts where the previous ended),
non-empty, start at `start` and end at `e`; their union is then
`[start, e)`, pairwise disjoint and increasing. -/
def sweepEnd (start : Int) : List (Int × Int) → Option Int
  | [] => some start
  | (s, l) :: rest => if s = start ∧ 1 ≤ l then sweepEnd (s + l) rest else none

/-- Unfolding equation of `bank_sweep` at positive fuel. -/
theorem bank_sweep_succ (n mrc start : Int) (fuel : Nat) :
    bank_sweep n mrc start (fuel + 1)
      = match read_multiple_registers_step n mrc start with
        | .skip => []
        | .emit s l cont =>
          (s, l) :: (if cont then bank_sweep n mrc (s + l) fuel else []) := rfl

/-- Helper: a sweep started inside the bank with enough fuel covers exactly
the remaining `[start, n)` with every READ of length between 1 and `mrc`. -/
theorem bank_sweep_covers (n mrc : Int) (hm : 1 ≤ mrc) :
    ∀ (fuel : Nat) (start : Int), 0 ≤ start → start < n → n ≤ start + fuel →
      sweepEnd start (bank_sweep n mrc start fuel) = some n ∧
      ∀ pr ∈ bank_sweep n mrc start fuel, 1 ≤ pr.2 ∧ pr.2 ≤ mrc := by
  intro fuel
  induction fuel with
  | zero => intro start h0 h1 h2; omega
  | succ fuel ih =>
    intro start h0 h1 h2
    by_cases hc : start + mrc - 1 + 1 ≥ n
    · have hstep : read_multiple_registers_step n mrc start
          = .emit start (n - start) false := by
        unfold read_multiple_registers_step
        dsimp only
        rw [if_pos hc,
          show (if start = 0 then n else n - start) = n - start by split <;> omega,
          if_neg (show ¬ n - start ≤ 0 by omega)]
        have hb : ¬ ¬ start + (n - start) + 1 > n := by omega
        simp [hb]
      have hsw : bank_sweep n mrc start (fuel + 1) = [(start, n - start)] := by
        rw [bank_sweep_succ, hstep]
        simp
      rw [hsw]
      constructor
      · unfold sweepEnd
        rw [if_pos (by omega : start = start ∧ 1 ≤ n - start),
          show start + (n - start) = n by omega]
        rfl
      · intro pr hpr
        simp only [List.mem_singleton] at hpr
        subst hpr
        exact ⟨by show (1:Int) ≤ n - start; omega, by show n - start ≤ mrc; omega⟩
    · have hstep : read_multiple_registers_step n mrc start
          = .emit start mrc true := by
        unfold read_multiple_registers_step
        dsimp only
        rw [if_neg hc, if_neg (show ¬ mrc ≤ 0 by omega)]
        have hb : ¬ start + mrc + 1 > n := by omega
        simp [hb]
      have hsw : bank_sweep n mrc start (fuel + 1)
          = (start, mrc) :: bank_sweep n mrc (start + mrc) fuel := by
        rw [bank_sweep_succ, hstep]
        simp
      obtain ⟨ihc, ihb⟩ := ih (start + mrc) (by omega) (by omega) (by omega)
      rw [hsw]
      constructor
      · unfold sweepEnd
        rw [if_pos (by exact ⟨rfl, hm⟩)]
        exact ihc
      · intro pr hpr
        simp only [List.mem_cons] at hpr
        rcases hpr with hpr | hpr
        · subst hpr; exact ⟨hm, le_refl _⟩
        · exact ihb pr hpr

/-- C2 counterexample: the claim quantifies over every `max_packet_length`
`m`, but for `m = 8` (attribute value 8) the per-packet budget
`(m - 8) // 4` is 0, so on a bank of size 1 the planner emits no READ at all
and skips the bank: the union of the emitted ranges is empty, not `[0, 1)`. -/
theorem C2_counterexample :
    get_max_packet_length_for_device (some (.pyInt 8)) = 8 ∧
    max_readable_registers_count 8 = 0 ∧
    read_multiple_registers_step 1 0 0 = .skip ∧
    bank_sweep 1 (max_readable_registers_count
      (get_max_packet_length_for_device (some (.pyInt 8)))) 0 2 = [] ∧
    ¬ sweepEnd 0 (bank_sweep 1 (max_readable_registers_count
      (get_max_packet_length_for_device (some (.pyInt 8)))) 0 2) = some 1 := by
  refine ⟨rfl, rfl, rfl, rfl, fun h => ?_⟩
  rw [show sweepEnd 0 (bank_sweep 1 (max_readable_registers_count
      (get_max_packet_length_for_device (some (.pyInt 8)))) 0 2) = some 0 from rfl] at h
  simp at h

/-- C2 (amended): provided the device's `max_packet_length` is at least 12
(so that at least one register fits in a packet), a bank sweep starting at
cursor 0 over a bank of size `n > 0` emits READ_MULTIPLE requests each
covering between 1 and `(m - 8) // 4` registers, in consecutive, disjoint,
increasing ranges whose union is exactly `[0, n)`; for a bank of size 0 the
step emits no READ and advances past the bank; `m` defaults to 80 when the
attribute is absent or not an integer; when `(m - 8) // 4 ≤ 0` the bank is
skipped without any READ. -/
theorem C2_amended_bank_sweep (attr : Option PyValue) (n : Int) (s : String)
    (hm : 12 ≤ get_max_packet_length_for_device attr) (hn : 0 ≤ n) :
    (0 < n →
      sweepEnd 0 (bank_sweep n (max_readable_registers_count
        (get_max_packet_length_for_device attr)) 0 n.toNat) = some n ∧
      ∀ pr ∈ bank_sweep n (max_readable_registers_count
          (get_max_packet_length_for_device attr)) 0 n.toNat,
        1 ≤ pr.2 ∧ pr.2 ≤ max_readable_registers_count
          (get_max_packet_length_for_device attr)) ∧
    (n = 0 → read_multiple_registers_step n (max_readable_registers_count
        (get_max_packet_length_for_device attr)) 0 = .skip) ∧
    get_max_packet_length_for_device none = 80 ∧
    get_max_packet_length_for_device (some (.pyStr s)) = 80 := by
  have hmrc : 1 ≤ max_readable_registers_count
      (get_max_packet_length_for_device attr) := by
    unfold max_readable_registers_count
    rw [Int.fdiv_eq_ediv _ (by omega)]
    omega
  refine ⟨?_, ?_, rfl, rfl⟩
  · intro hpos
    exact bank_sweep_covers n _ hmrc n.toNat 0 (by omega) hpos (by omega)
  · intro h0
    subst h0
    unfold read_multiple_registers_step
    dsimp only
    rw [if_pos (show (0:Int) + max_readable_registers_count
        (get_max_packet_length_for_device attr) - 1 + 1 ≥ 0 by omega),
      if_pos rfl, if_pos (by omega : (0:Int) ≤ 0)]

/-- C2 witness: a device advertising `max_packet_length = 20` (3 registers
per packet) with a bank of 5 registers: the sweep is `[0,3) ; [3,5)`,
covering `[0,5)`. -/
theorem C2_amended_bank_sweep_witness :
    (bank_sweep 5 (max_readable_registers_count
      (get_max_packet_length_for_device (some (.pyInt 20)))) 0 5
      = [(0, 3), (3, 2)] ∧
    sweepEnd 0 (bank_sweep 5 (max_readable_registers_count
      (get_max_packet_length_for_device (some (.pyInt 20)))) 0 5) = some 5) ∧
    read_multiple_registers_step 0 (max_readable_registers_count
      (get_max_packet_length_for_device none)) 0 = .skip :=
  ⟨⟨by decide,
    ((C2_amended_bank_sweep (some (.pyInt 20)) 5 "" (by decide) (by decide)).1
      (by decide)).1⟩,
   (C2_amended_bank_sweep none 0 "" (by decide) (by decide)).2.1 rfl⟩

/-! ### C3 — multi-register reply parsing
Embedding of `V1Parser.__parse_multiple_registers_values`
(`fb_bus_connector_plugin/api/v1parser.py` lines 1097-1187) and
`parse_read_multiple_registers_values` (lines 299-339).  The registers
registry (`RegistersRegistry.get_by_address` for the resolved device) is the
lookup function `PRegisterType → Int → Option DeviceDataType`, returning the
data type of the register at an address. -/

/-- Data types of `fb_bus_connector_plugin/types.py` (`DeviceDataType`). -/
inductive DeviceDataType
  | unknown
  | uint8
  | uint16
  | uint32
  | int8
  | int16
  | int32
  | float32
  | boolean
  | time
  | date
  | datetime
  | string
  | button
  | switch
  deriving DecidableEq, Repr

/-- Register types of `fb_bus_connector_plugin/types.py` (`RegisterType`). -/
inductive PRegisterType
  | input
  | output
  | attribute
  | setting
  deriving DecidableEq, Repr

/-- Numeric value to plugin `RegisterType` member (`validate_register_type`
plus the `RegisterType(...)` coercion: INPUT=0x01, OUTPUT=0x02,
ATTRIBUTE=0x03, SETTING=0x04). -/
def PRegisterType.fromValue (n : Nat) : Option PRegisterType :=
  match n with
  | 0x01 => some .input
  | 0x02 => some .output
  | 0x03 => some .attribute
  | 0x04 => some .setting
  | _ => none

/-- Data types the multi-register parser accepts (source list at
`v1parser.py` lines 1149-1161; BUTTON and SWITCH are absent). -/
def supportedDataTypes : List DeviceDataType :=
  [.uint8, .uint16, .uint32, .int8, .int16, .int32, .float32, .boolean,
   .time, .date, .datetime, .string]

/-- Little-endian 32-bit read of the first four bytes (`struct.unpack("<I",
bytearray(value[0:4]))`); the loop guard guarantees four bytes are present. -/
def bytesToNatLE4 (bs : List Nat) : Nat :=
  bs.getD 0 0 + 256 * bs.getD 1 0 + 65536 * bs.getD 2 0 + 16777216 * bs.getD 3 0

/-- Two's-complement reading of a 32-bit pattern (`struct.unpack("<i", ...)`). -/
def asSigned32 (n : Nat) : Int :=
  if n < 2147483648 then (n : Int) else (n : Int) - 4294967296

/-- Embedding of `TextHelpers.extract_text_from_payload` (no length argument): characters
until the reserved DATA_SPACE byte `0x20` or the end of the payload. -/
def extract_text_chars : List Nat → List Char
  | [] => []
  | b :: rest => if b = 0x20 then [] else Char.ofNat b :: extract_text_chars rest

/-- Text extracted from a byte run. -/
def extract_text_from_payload (bs : List Nat) : String :=
  String.mk (extract_text_chars bs)

/-- Shape check standing in for Python's `datetime.strptime(s, "%Y-%m-%d")`
succeeding (stdlib detail; no claim depends on it): ten characters, digits
with dashes at positions 4 and 7. -/
def looksLikeDate (s : String) : Bool :=
  let cs := s.toList
  decide (cs.length = 10) &&
    (List.range 10).all fun i =>
      if i = 4 ∨ i = 7 then cs.getD i ' ' = '-' else (cs.getD i ' ').isDigit

/-- Shape check standing in for `strptime(s, "%H:%M:%S%z")` succeeding
(stdlib detail; no claim depends on it). -/
def looksLikeTime (s : String) : Bool :=
  let cs := s.toList
  decide (8 ≤ cs.length) && cs.getD 2 ' ' = ':' && cs.getD 5 ' ' = ':'

/-- Shape check standing in for `strptime` with the source's raw format
`%Y-%m-%d\T%H:%M:%S%z` succeeding (stdlib detail; no claim depends on it). -/
def looksLikeDatetime (s : String) : Bool :=
  decide (20 ≤ s.toList.length) && looksLikeDate (String.mk (s.toList.take 10))

/-- Embedding of `DataTransformHelpers.transform_value_from_bytes`
(`fb_bus_connector_plugin/utilities/helpers.py` lines 235-303): unsigned and
signed integers and the float bit pattern from a little-endian u32 slot,
BOOLEAN compared against `0xFF00`, BUTTON/SWITCH only for enum members
(else fall through to `None`), text extracted up to the DATA_SPACE byte,
dates parsed from the extracted text (`None` on format failure). -/
def transform_value_from_bytes (dt : DeviceDataType) (value : List Nat) :
    Option PyValue :=
  match dt with
  | .float32 => some (.pyFloat (bytesToNatLE4 value))
  | .uint8 | .uint16 | .uint32 => some (.pyInt (bytesToNatLE4 value))
  | .int8 | .int16 | .int32 => some (.pyInt (asSigned32 (bytesToNatLE4 value)))
  | .boolean => some (.pyBool (decide (bytesToNatLE4 value = 0xFF00)))
  | .button =>
    if bytesToNatLE4 value ≤ 7 then some (.pyButton (bytesToNatLE4 value)) else none
  | .switch =>
    if bytesToNatLE4 value ≤ 2 then some (.pySwitch (bytesToNatLE4 value)) else none
  | .string => some (.pyStr (extract_text_from_payload value))
  | .date =>
    let t := extract_text_from_payload value
    if looksLikeDate t then some (.pyDatetime t) else none
  | .time =>
    let t := extract_text_from_payload value
    if looksLikeTime t then some (.pyDatetime t) else none
  | .datetime =>
    let t := extract_text_from_payload value
    if looksLikeDatetime t then some (.pyDatetime t) else none
  | .unknown => none

/-- Parse failure (`ParsePayloadException`). -/
structure ParseError where
  msg : String
  deriving DecidableEq, Repr

/-- The `while` loop of `__parse_multiple_registers_values` (lines
1137-1185): while `position_byte + 3 < length` and registers remain, look
the running address up in the registry (unknown register raises), check the
data type against the supported list (else raise), decode the slice from
`position_byte` and append `(address, value)`; the position always advances
by 4 (`parsed_value` is a `list`, never a `str`/`datetime`, so the
`isinstance` branch at line 1175 is dead).  `remaining` counts the registers
still to process (`registers_count - processed_registers_count`). -/
def parse_loop (lookup : Int → Option DeviceDataType) (payload : List Nat)
    (length : Int) : Int → Int → Nat → Except ParseError (List (Int × Option PyValue))
  | _, _, 0 => .ok []
  | pos, addr, r + 1 =>
    if pos + 3 < length then
      match lookup addr with
      | none => .error ⟨"Register value could not be extracted from payload, register was not found in registry"⟩
      | some dt =>
        if dt ∈ supportedDataTypes then
          match parse_loop lookup payload length (pos + 4) (addr + 1) r with
          | .error e => .error e
          | .ok rest =>
            .ok ((addr, transform_value_from_bytes dt (payload.drop pos.toNat)) :: rest)
        else .error ⟨"Register value could not be extracted from payload"⟩
    else .ok []

/-- Unfolding equation of `parse_loop` at a positive register count. -/
theorem parse_loop_succ (lookup : Int → Option DeviceDataType) (payload : List Nat)
    (length pos addr : Int) (r : Nat) :
    parse_loop lookup payload length pos addr (r + 1)
      = if pos + 3 < length then
          match lookup addr with
          | none => .error ⟨"Register value could not be extracted from payload, register was not found in registry"⟩
          | some dt =>
            if dt ∈ supportedDataTypes then
              match parse_loop lookup payload length (pos + 4) (addr + 1) r with
              | .error e => .error e
              | .ok rest =>
                .ok ((addr, transform_value_from_bytes dt (payload.drop pos.toNat)) :: rest)
            else .error ⟨"Register value could not be extracted from payload"⟩
        else .ok [] := rfl

/-- Start address of a multi-register payload body:
`(int(payload[1]) << 8) | int(payload[2])`. -/
def multiStartAddress (payload : List Nat) : Int :=
  ((Nat.lor (payload.getD 1 0 <<< 8) (payload.getD 2 0) : Nat) : Int)

/-- Embedding of `V1Parser.__parse_multiple_registers_values` (lines 1097-1187) on the
payload body `payload[2:]`: register type byte, start address, register
count byte, then the decode loop from position 4. -/
def parse_multiple_registers_values
    (lookupK : PRegisterType → Int → Option DeviceDataType)
    (payload : List Nat) (length : Int) :
    Except ParseError (PRegisterType × List (Int × Option PyValue)) :=
  match PRegisterType.fromValue (payload.getD 0 0) with
  | none => .error ⟨"Unknown register type received"⟩
  | some rt =>
    match parse_loop (lookupK rt) payload length 4 (multiStartAddress payload)
        (payload.getD 3 0) with
    | .error e => .error e
    | .ok values => .ok (rt, values)

/-- Embedding of `V1Parser.parse_read_multiple_registers_values` (lines 299-339): reject
a reported length below 10, reject an unknown source device, then parse the
body `payload[2:]` with `length - 2`. -/
def parse_read_multiple_registers_values (deviceFound : Bool)
    (lookupK : PRegisterType → Int → Option DeviceDataType)
    (payload : List Nat) (length : Int) :
    Except ParseError (PRegisterType × List (Int × Option PyValue)) :=
  if length < 10 then
    .error ⟨"Invalid packet length"⟩
  else if deviceFound = false then
    .error ⟨"Device could not be found in registry"⟩
  else
    parse_multiple_registers_values lookupK (payload.drop 2) (length - 2)

/-- A registry answer that aborts the parse: no register at the address, or
a register whose data type is outside the supported list. -/
def badRegister : Option DeviceDataType → Bool
  | none => true
  | some dt => ! decide (dt ∈ supportedDataTypes)

/-- Helper: if any register the loop visits (index below the remaining
count, its 4 data bytes inside the reported length) is bad, the whole loop
raises. -/
theorem parse_loop_error_of_bad (lookup : Int → Option DeviceDataType)
    (payload : List Nat) (length : Int) :
    ∀ (remaining : Nat) (pos addr : Int),
      (∃ i : Nat, i < remaining ∧ pos + 4 * (i : Int) + 3 < length ∧
        badRegister (lookup (addr + (i : Int))) = true) →
      ∃ e, parse_loop lookup payload length pos addr remaining = .error e := by
  intro remaining
  induction remaining with
  | zero =>
    rintro pos addr ⟨i, hi, _, _⟩
    omega
  | succ r ih =>
    rintro pos addr ⟨i, hi, hfit, hbad⟩
    have hcond : pos + 3 < length := by
      have : (0 : Int) ≤ 4 * (i : Int) := by positivity
      omega
    rw [parse_loop_succ, if_pos hcond]
    cases hl : lookup addr with
    | none => exact ⟨_, rfl⟩
    | some dt =>
      dsimp only
      by_cases hs : dt ∈ supportedDataTypes
      · rw [if_pos hs]
        have hi0 : i ≠ 0 := by
          intro h
          subst h
          simp only [Nat.cast_zero, add_zero] at hbad
          rw [hl] at hbad
          simp [badRegister, hs] at hbad
        obtain ⟨j, hj⟩ : ∃ j, i = j + 1 := ⟨i - 1, by omega⟩
        subst hj
        obtain ⟨e, he⟩ := ih (pos + 4) (addr + 1)
          ⟨j, by omega, by push_cast at hfit; omega,
            by rw [show addr + 1 + (j : Int) = addr + ((j + 1 : Nat) : Int) by
              push_cast; ring]; exact hbad⟩
        rw [he]
        exact ⟨e, rfl⟩
      · rw [if_neg hs]
        exact ⟨_, rfl⟩

/-- Concrete registry used by the C3 theorems: the source device has exactly
one register, an INPUT register of type UINT8 at address 0. -/
def c3Lookup : PRegisterType → Int → Option DeviceDataType :=
  fun rt a => if rt = .input ∧ a = 0 then some .uint8 else none

/-- C3 counterexample: a reply declaring count = 2 over `[0, 2)` whose body
only carries the 4 data bytes of one register (outer length 10 passes the
`length < 10` gate).  Address 1 has no register in the registry, yet the
parse does not fail: the loop stops when fewer than 4 payload bytes remain,
never looks address 1 up, and returns the decoded leading value of register
0 — against the claim that the whole reply aborts with a parse-error and no
values. -/
theorem C3_counterexample :
    parse_read_multiple_registers_values true c3Lookup
        [0x01, 0x22, 0x01, 0x00, 0x00, 0x02, 0x01, 0x00, 0x00, 0x00] 10
      = .ok (.input, [(0, some (.pyInt 1))]) ∧
    c3Lookup .input 1 = none ∧
    ∀ e, ¬ parse_read_multiple_registers_values true c3Lookup
        [0x01, 0x22, 0x01, 0x00, 0x00, 0x02, 0x01, 0x00, 0x00, 0x00] 10
      = .error e := by
  refine ⟨rfl, rfl, fun e h => ?_⟩
  rw [show parse_read_multiple_registers_values true c3Lookup
      [0x01, 0x22, 0x01, 0x00, 0x00, 0x02, 0x01, 0x00, 0x00, 0x00] 10
      = .ok (.input, [(0, some (.pyInt 1))]) from rfl] at h
  exact Except.noConfusion h

/-- C3 (amended): the parser visits addresses `start + i` for `i` below the
declared count while at least 4 data bytes remain inside the reported
length; if any *visited* address has no register in the registry or a
register with an unsupported data type, the whole parse fails with a
parse-error, and — the result being an `Except.error` — no decoded values
are returned: the already-decoded leading values of the payload are
discarded.  When the payload runs out before the declared count, the parse
instead succeeds with the visited prefix, without checking the remaining
covered addresses. -/
theorem C3_amended_multi_reply_abort
    (lookupK : PRegisterType → Int → Option DeviceDataType)
    (payload : List Nat) (length : Int) (rt : PRegisterType)
    (h10 : ¬ length < 10)
    (hrt : PRegisterType.fromValue ((payload.drop 2).getD 0 0) = some rt)
    (hbad : ∃ i : Nat, i < (payload.drop 2).getD 3 0 ∧
      (4 : Int) + 4 * (i : Int) + 3 < length - 2 ∧
      badRegister (lookupK rt (multiStartAddress (payload.drop 2) + (i : Int)))
        = true) :
    ∃ e, parse_read_multiple_registers_values true lookupK payload length
      = .error e := by
  unfold parse_read_multiple_registers_values
  rw [if_neg h10, if_neg (by simp)]
  unfold parse_multiple_registers_values
  rw [hrt]
  dsimp only
  obtain ⟨e, he⟩ := parse_loop_error_of_bad (lookupK rt) (payload.drop 2)
    (length - 2) ((payload.drop 2).getD 3 0) 4 (multiStartAddress (payload.drop 2))
    hbad
  rw [he]
  exact ⟨e, rfl⟩

/-- C3 witness: a reply with count = 1 and full data whose start address is
1 — the single visited register (address 1) is absent from the registry, so
the parse errs. -/
theorem C3_amended_multi_reply_abort_witness :
    ∃ e, parse_read_multiple_registers_values true c3Lookup
        [0x01, 0x22, 0x01, 0x00, 0x01, 0x01, 0x00, 0x00, 0x00, 0x00] 10
      = .error e :=
  C3_amended_multi_reply_abort c3Lookup
    [0x01, 0x22, 0x01, 0x00, 0x01, 0x01, 0x00, 0x00, 0x00, 0x00] 10 .input
    (by decide) (by decide) ⟨0, by decide, by decide, by decide⟩

/-! ### C7 — address assignment when pairing finalizes
Embedding of `ApiV1Pairing.__write_discovered_device_new_address`
(`fastybird_fb_bus_connector/pairing/apiv1.py` lines 798-861) and of the
free-address scan the spec mandates, which exists in the repository as
`DevicesRegistry.find_free_address`
(`fb_bus_connector_plugin/registry/model.py` lines 388-403) but is never
called. -/

/-- The address value the pairing finalizer writes, hard-coded at
`pairing/apiv1.py` line 838 (`value=5,  # TODO: Search for free address`). -/
def new_device_address : Int := 5

/-- Embedding of `DevicesRegistry.find_free_address` (plugin `registry/model.py` lines
388-403): collect the addresses of all known devices, then return the first
`i` of `range(1, 253)` (that is, 1..252) not among them. -/
def find_free_address (reserved : List Int) : Option Int :=
  (((List.range 252).map fun k => ((k : Int) + 1)).filter
    fun i => decide (i ∉ reserved)).head?

/-- Discovered ATTRIBUTE register row accumulated during pairing (subset of
`DiscoveredAttributeRegisterRecord`). -/
structure DiscoveredAttributeRegister where
  address : Nat
  data_type : MDataType
  name : Option String
  deriving DecidableEq, Repr

/-- Embedding of `ApiV1Pairing.__write_discovered_device_new_address`: find the
discovered ATTRIBUTE register named "address"; encode the hard-coded value 5
for its data type; on success return the broadcast WRITE payload
`[version, opcode, ATTRIBUTE, addr_hi, addr_lo, value_bytes…]` (`none` when
the register or the encoding is missing, in which case pairing is not
finished). -/
def write_discovered_device_new_address
    (discovered_registers : List DiscoveredAttributeRegister) :
    Option (List Nat) :=
  match discovered_registers.find? (fun r => r.name = some "address") with
  | none => none
  | some address_register =>
    match transform_to_bytes address_register.data_type
        (.pyInt new_device_address) with
    | none => none
    | some bs =>
      some ([0x01, 0x23, 0x03, address_register.address / 256 % 256,
        address_register.address % 256] ++ bs)

/-- C7: the claim (and the spec) mandate scanning `1..=253` minus the used
addresses; the code instead broadcasts the hard-coded address 5 — its own
TODO comment ("Search for free address") records the intended scan, and the
repository even contains the scan as the never-called
`DevicesRegistry.find_free_address`.  On a registry already holding address
5 the write targets an occupied address although free addresses exist (the
scan would pick 1). -/
theorem C7_hardcoded_address :
    write_discovered_device_new_address [⟨1, .uchar, some "address"⟩]
      = some [0x01, 0x23, 0x03, 0, 1, 5, 0, 0, 0] ∧
    new_device_address ∈ [(5 : Int)] ∧
    find_free_address [(5 : Int)] = some 1 ∧
    ¬ new_device_address = 1 := by
  refine ⟨rfl, by decide, by decide, by decide⟩

/-! ### C8 — device states on `stop()`
Embedding of `FbBusConnector.stop` and `FbBusConnector.start`
(`fastybird_fb_bus_connector/connector.py` lines 400-427). -/

/-- Connection states of the `fastybird_metadata` library used by the
connector, with their string values. -/
inductive ConnState
  | unknown
  | init
  | running
  | stopped
  | connected
  | disconnected
  | lost
  | alert
  deriving DecidableEq, Repr

/-- Metadata string value of a connection state. -/
def ConnState.value : ConnState → String
  | .unknown => "unknown"
  | .init => "init"
  | .running => "running"
  | .stopped => "stopped"
  | .connected => "connected"
  | .disconnected => "disconnected"
  | .lost => "lost"
  | .alert => "alert"

/-- Device attribute kinds (`DeviceAttribute`: "state", "address",
"max_packet_length"). -/
inductive AttrKind
  | state
  | address
  | maxPacketLength
  deriving DecidableEq, Repr

/-- Modelled from the spec: the newer package's `AttributesRegistry`
(`registry/model.py`, not under `src/`) is an in-memory table of per-device
attribute records; `get_all_by_type` filters by kind and `set_value`
assigns the record's value. -/
structure AttributeRecord where
  device : Nat
  kind : AttrKind
  value : Option PyValue
  deriving DecidableEq, Repr

/-- Embedding of `FbBusConnector.stop` (lines 415-427), its registry effect: for every
STATE attribute record, set the value to
`ConnectionState.DISCONNECTED.value`. -/
def connector_stop (attrs : List AttributeRecord) : List AttributeRecord :=
  attrs.map fun a =>
    if a.kind = .state then
      { a with value := some (.pyStr ConnState.disconnected.value) }
    else a

/-- Embedding of `FbBusConnector.start` (lines 400-411), its registry effect: for every
device in the devices registry, set the connection state to UNKNOWN
(`DevicesRegistry.set_state`, modelled from the spec as assigning the
per-device state since the newer `registry/model.py` is not under `src/`). -/
def connector_start (devices : List (Nat × ConnState)) : List (Nat × ConnState) :=
  devices.map fun d => (d.1, ConnState.unknown)

/-- C8 counterexample: after `stop()` a device's STATE attribute holds
"disconnected", not "unknown" — the claim that every device has connection
state UNKNOWN after `stop()` returns is false. -/
theorem C8_counterexample :
    connector_stop [⟨7, .state, some (.pyStr "running")⟩]
      = [⟨7, .state, some (.pyStr "disconnected")⟩] ∧
    ¬ (connector_stop [⟨7, .state, some (.pyStr "running")⟩]).map
        AttributeRecord.value = [some (.pyStr ConnState.unknown.value)] := by
  refine ⟨rfl, by decide⟩

/-- C8 (amended): after `stop()` every STATE attribute record holds the
DISCONNECTED state value; it is `start()` that transitions every device
state to UNKNOWN. -/
theorem C8_amended_stop_disconnects (attrs : List AttributeRecord)
    (devices : List (Nat × ConnState)) :
    (∀ a ∈ connector_stop attrs, a.kind = .state →
      a.value = some (.pyStr ConnState.disconnected.value)) ∧
    (∀ d ∈ connector_start devices, d.2 = ConnState.unknown) := by
  constructor
  · intro a ha hk
    unfold connector_stop at ha
    rw [List.mem_map] at ha
    obtain ⟨b, _, hb⟩ := ha
    by_cases hbk : b.kind = .state
    · rw [if_pos hbk] at hb
      rw [← hb]
    · rw [if_neg hbk] at hb
      rw [← hb] at hk
      exact absurd hk hbk
  · intro d hd
    unfold connector_start at hd
    rw [List.mem_map] at hd
    obtain ⟨b, _, hb⟩ := hd
    rw [← hb]

/-- C8 witness: the amended theorem applied to a one-device registry. -/
theorem C8_amended_stop_disconnects_witness :
    (⟨7, .state, some (.pyStr "disconnected")⟩ : AttributeRecord).value
      = some (.pyStr ConnState.disconnected.value) :=
  (C8_amended_stop_disconnects [⟨7, .state, some (.pyStr "running")⟩] []).1
    ⟨7, .state, some (.pyStr "disconnected")⟩ (by decide) rfl

/-! ### C9 — connector `initialize(settings)`
Embedding of `FbBusConnector.initialize`
(`fastybird_fb_bus_connector/connector.py` lines 144-165). -/

/-- Host-supplied settings dictionary (each key optional). -/
structure ConnectorSettings where
  address : Option Int
  baud_rate : Option Int
  interface : Option String
  protocol_version : Option Nat
  deriving DecidableEq, Repr

/-- The dict merge of lines 147-155: `{**connector_settings, **{"address":
254, "baud_rate": 38400, "interface": "/dev/ttyAMA0", "protocol_version":
V1}}` — in Python the *second* dict wins, so every one of the four keys is
overwritten with its default regardless of what the host supplied. -/
def merge_settings (s : ConnectorSettings) : ConnectorSettings :=
  { s with address := some 254, baud_rate := some 38400,
           interface := some "/dev/ttyAMA0", protocol_version := some 1 }

/-- Arguments handed to `client.initialize`. -/
structure ClientInit where
  address : Int
  baud_rate : Int
  interface : String
  protocol_version : Nat
  deriving DecidableEq, Repr

/-- Embedding of `FbBusConnector.initialize` (lines 144-165): default the settings dict
to `{}`, merge the defaults over it, then configure the client from the
merged values (`protocol_version` falls back to V1 when the merged value is
not a `ProtocolVersion`). -/
def initializeConnector (settings : Option ConnectorSettings) : ClientInit :=
  let connector_settings :=
    match settings with
    | some s => s
    | none => ⟨none, none, none, none⟩
  let merged := merge_settings connector_settings
  { address := merged.address.getD 0
    baud_rate := merged.baud_rate.getD 0
    interface := merged.interface.getD ""
    protocol_version :=
      match merged.protocol_version with
      | some v => v
      | none => 1 }

/-- C9: the claim says host-supplied values are used, with the defaults
`address=254, baud_rate=38400, interface="/dev/ttyAMA0", protocol_version=V1`
only as fallbacks for missing keys.  The code merges the defaults *over* the
supplied dict (`{**settings, **defaults}`), so the transport is always
configured with the four defaults: supplying `address=10, baud_rate=9600,
interface="/dev/ttyUSB0"` still yields address 254, baud rate 38400 and
interface "/dev/ttyAMA0".  The spec records the intent — a settings
parameter whose values can never take effect is a slip. -/
theorem C9_defaults_override_settings :
    (∀ s : ConnectorSettings,
      initializeConnector (some s) = ⟨254, 38400, "/dev/ttyAMA0", 1⟩) ∧
    (initializeConnector (some ⟨some 10, some 9600, some "/dev/ttyUSB0",
      some 1⟩)).address = 254 ∧
    ¬ (initializeConnector (some ⟨some 10, some 9600, some "/dev/ttyUSB0",
      some 1⟩)).address = 10 := by
  refine ⟨fun s => rfl, rfl, by decide⟩

end FbBus
